import Mathlib

/-!
Verification of the per-user free-trial entitlement gate of the CareerTech
application (src/app.py). The gate consists of the `AiUsage` table
(app.py lines 104-112), the lock check and POST branch of the `chatbot`
handler (lines 1113-1170), and the `end_chatbot` handler (lines 1173-1193).
The persisted table is embedded as a list of rows; SQLAlchemy's
`filter_by(user_id=...).first()` becomes a `find?` over that list,
`db.add` appends a row, and the in-place `usage.ai_used = 1` update
becomes an update of the first matching row.
-/

namespace CareerTech

/-- A row of the `ai_usage` table (app.py lines 104-112): integer
`user_id` (unique key) and integer `ai_used` with default 0. -/
structure AiUsage where
  user_id : Int
  ai_used : Int
deriving DecidableEq

/-- The persisted `ai_usage` table: a sequence of rows. -/
abbrev Db := List AiUsage

/-- `db.query(AiUsage).filter_by(user_id=user_id).first()` (app.py
lines 1120 and 1181): the first row whose `user_id` matches. -/
def queryFirst (db : Db) (uid : Int) : Option AiUsage :=
  db.find? (fun r => r.user_id == uid)

/-- App.py line 1121: `locked = bool(usage and usage.ai_used == 1)` —
true iff a row is found and its `ai_used` equals 1. The spec calls
this operation `is_locked`. -/
def is_locked (db : Db) (uid : Int) : Bool :=
  match queryFirst db uid with
  | none => false
  | some u => u.ai_used == 1

/-- Grant/deny outcome of the gate check made by the POST branch of
`chatbot` (app.py line 1135); the spec calls this `try_consume`. -/
inductive GateResult
  | Granted
  | Denied
deriving DecidableEq

/-- The gate decision of app.py line 1135: denied exactly when locked. -/
def try_consume (db : Db) (uid : Int) : GateResult :=
  if is_locked db uid then .Denied else .Granted

/-- One entry of the session chat history: a dict with `role` and
`content` keys (app.py lines 1136-1139, 1147, 1165). -/
structure Message where
  role : String
  content : String
deriving DecidableEq

/-- Caller-owned per-session state: `session["ai_history"]` and
`session["ai_used"]` (app.py lines 1129-1132, 1191-1192). -/
structure Session where
  ai_history : List Message
  ai_used : Bool
deriving DecidableEq

/-- The static refusal entry appended when a locked user posts
(app.py lines 1136-1139). -/
def refusal : Message :=
  { role := "assistant"
    content := "⚠ Your free AI career chat has ended. Please upgrade via Subscription (demo)." }

/-- The static reply used when no Groq client is configured
(app.py line 1153). -/
def notConfiguredReply : String :=
  "AI is not configured yet. Please ask admin to set GROQ_API_KEY on the server."

/-- Update the first row matching `uid` to `ai_used = 1`, leaving the
rest unchanged: the effect of `usage.ai_used = 1` on the row returned
by `.first()` (app.py line 1186). -/
def setFirst (db : Db) (uid : Int) : Db :=
  match db with
  | [] => []
  | r :: rest =>
    if r.user_id == uid then { r with ai_used := 1 } :: rest
    else r :: setFirst rest uid

/-- The database effect of `end_chatbot` (app.py lines 1181-1187): if no
row exists for `uid`, insert `AiUsage(user_id=uid, ai_used=1)`;
otherwise set the found row's `ai_used` to 1. -/
def end_chatbot_db (db : Db) (uid : Int) : Db :=
  match queryFirst db uid with
  | none => db ++ [{ user_id := uid, ai_used := 1 }]
  | some _ => setFirst db uid

/-- The full `end_chatbot` handler (app.py lines 1173-1193): upsert the
usage row, then overwrite the session with an empty history and
`ai_used = True` (lines 1191-1192), discarding the prior session. -/
def end_chatbot (db : Db) (_sess : Session) (uid : Int) : Db × Session :=
  (end_chatbot_db db uid, { ai_history := [], ai_used := true })

/-- Result of one POST to `chatbot`: the (unchanged) database, the new
history, and whether the external Groq completion call was made. -/
structure PostResult where
  db : Db
  history : List Message
  calledGroq : Bool
deriving DecidableEq

/-- The POST branch of `chatbot` (app.py lines 1134-1166), parametrised
by the form message, whether a Groq client is configured (line 1152),
and the reply string the external call would produce (the completion
content, or the `AI error: ...` string of line 1163). If locked, the
refusal entry is appended and no external call is made (lines
1135-1143). Otherwise the stripped message, if nonempty, is appended
together with the assistant reply (lines 1145-1166). The handler never
writes to the `ai_usage` table. -/
def chatbot_post (db : Db) (uid : Int) (history : List Message)
    (userMsg : String) (groqConfigured : Bool) (groqReply : String) : PostResult :=
  if is_locked db uid then
    { db := db, history := history ++ [refusal], calledGroq := false }
  else if (userMsg.trim).isEmpty then
    { db := db, history := history, calledGroq := false }
  else if groqConfigured then
    { db := db
      history := history ++ [{ role := "user", content := userMsg.trim },
                             { role := "assistant", content := groqReply }]
      calledGroq := true }
  else
    { db := db
      history := history ++ [{ role := "user", content := userMsg.trim },
                             { role := "assistant", content := notConfiguredReply }]
      calledGroq := false }

/-- A request touching the gate's persisted state: a chatbot POST, a
chatbot GET or reset (which only read the table / touch the session:
app.py lines 1119-1132), or an `end_chatbot` request. -/
inductive Op
  | post (uid : Int) (history : List Message) (userMsg : String)
         (groqConfigured : Bool) (groqReply : String)
  | reset (uid : Int)
  | get (uid : Int)
  | endSession (uid : Int)

/-- The effect of one request on the persisted `ai_usage` table. GET and
reset never write it; POST passes it through unchanged; only
`end_chatbot` mutates it. -/
def applyDb (db : Db) : Op → Db
  | .post uid h m cfg r => (chatbot_post db uid h m cfg r).db
  | .reset _ => db
  | .get _ => db
  | .endSession uid => end_chatbot_db db uid

/-- Run a sequence of requests against the table. -/
def runOps (db : Db) (ops : List Op) : Db :=
  ops.foldl applyDb db

/-- At most one `ai_usage` row per user: the `user_id` column, which the
schema declares `unique=True`, has no duplicates. -/
def oneRowPerUser (db : Db) : Prop :=
  (db.map AiUsage.user_id).Nodup

/-- The tables reachable from the initial empty database by the
application's request handlers. -/
inductive Reachable : Db → Prop
  | init : Reachable []
  | step (db : Db) (op : Op) : Reachable db → Reachable (applyDb db op)

/-- A sequence of chatbot POST exchanges within one session, each
threading the database and history through `chatbot_post`. -/
def chat_rounds (uid : Int) :
    Db × List Message → List (String × Bool × String) → Db × List Message
  | st, [] => st
  | (db, hist), (m, cfg, r) :: rest =>
    let res := chatbot_post db uid hist m cfg r
    chat_rounds uid (res.db, res.history) rest

/-- A `subscriptions` row (app.py lines 115-122): integer `user_id`
(unique) and boolean `active`. -/
structure Subscription where
  user_id : Int
  active : Bool
deriving DecidableEq

/-- The exception raised by a failing persistence-layer lookup
(connectivity, corruption). No call site of the gate catches it, so
each handler re-raises it to its caller; `Except` is the shallow
embedding of that control flow. -/
structure StorageError where
  msg : String
deriving DecidableEq

/-- The lock check of app.py lines 1120-1121 over a fallible lookup:
the pure computation `bool(usage and usage.ai_used == 1)` runs only
when the query returns; a raised exception propagates, since no
try/except encloses the query in `chatbot`. -/
def is_lockedE (lookup : Except StorageError (Option AiUsage)) :
    Except StorageError Bool :=
  lookup.map (fun usage =>
    match usage with
    | none => false
    | some u => u.ai_used == 1)

/-- The gate decision of app.py line 1135 over a fallible lookup. -/
def try_consumeE (lookup : Except StorageError (Option AiUsage)) :
    Except StorageError GateResult :=
  (is_lockedE lookup).map (fun locked => if locked then .Denied else .Granted)

/-- The database effect of `end_chatbot` (app.py lines 1181-1187) over
a fallible lookup: the upsert runs only when the query returns; the
try/finally of lines 1180-1189 only closes the connection and does not
swallow the exception. -/
def end_chatbot_dbE (db : Db) (uid : Int)
    (lookup : Except StorageError (Option AiUsage)) :
    Except StorageError Db :=
  lookup.map (fun usage =>
    match usage with
    | none => db ++ [{ user_id := uid, ai_used := 1 }]
    | some _ => setFirst db uid)

/-- `user_is_subscribed` (app.py lines 233-239) over a fallible lookup:
a falsy `user_id` (0 in this embedding) returns False before consulting
storage; otherwise the lookup's exception propagates uncaught. -/
def user_is_subscribedE (uid : Int)
    (lookup : Except StorageError (Option Subscription)) :
    Except StorageError Bool :=
  if uid == 0 then .ok false
  else lookup.map (fun sub =>
    match sub with
    | none => false
    | some s => s.active)

/-! ### Basic lemmas about the embedded operations -/

lemma queryFirst_cons (r : AiUsage) (rest : Db) (uid : Int) :
    queryFirst (r :: rest) uid =
      if r.user_id == uid then some r else queryFirst rest uid := by
  by_cases h : (r.user_id == uid) = true
  · simp [queryFirst, List.find?_cons_of_pos _ h, h]
  · simp [queryFirst, List.find?_cons_of_neg _ h, h]

lemma is_locked_cons (r : AiUsage) (rest : Db) (uid : Int) :
    is_locked (r :: rest) uid =
      if r.user_id == uid then (r.ai_used == 1) else is_locked rest uid := by
  by_cases h : (r.user_id == uid) = true <;>
    simp [is_locked, queryFirst_cons, h]

/-- `chatbot` never writes the `ai_usage` table: the database component
of every POST result is the input database. -/
lemma chatbot_post_db_eq (db : Db) (uid : Int) (hist : List Message)
    (m : String) (cfg : Bool) (r : String) :
    (chatbot_post db uid hist m cfg r).db = db := by
  unfold chatbot_post
  split <;> [rfl; split <;> [rfl; (split <;> rfl)]]

/-- Updating the first row for one user leaves every `user_id` in the
table unchanged. -/
lemma setFirst_map_user_id (db : Db) (uid : Int) :
    (setFirst db uid).map AiUsage.user_id = db.map AiUsage.user_id := by
  induction db with
  | nil => rfl
  | cons r rest ih =>
    by_cases h : (r.user_id == uid) = true <;>
      simp [setFirst, h, ih]

/-- After `setFirst db uid`, the first row found for `uid` is the
original first row with `ai_used` set to 1. -/
lemma queryFirst_setFirst_self (db : Db) (uid : Int) :
    queryFirst (setFirst db uid) uid =
      (queryFirst db uid).map (fun r => { r with ai_used := 1 }) := by
  induction db with
  | nil => rfl
  | cons r rest ih =>
    by_cases h : (r.user_id == uid) = true
    · simp [setFirst, h, queryFirst_cons]
    · simp [setFirst, h, queryFirst_cons, ih]

/-- `setFirst` for one user does not change the row found for another. -/
lemma queryFirst_setFirst_ne (db : Db) (u v : Int) (h : u ≠ v) :
    queryFirst (setFirst db v) u = queryFirst db u := by
  induction db with
  | nil => rfl
  | cons r rest ih =>
    by_cases hv : (r.user_id == v) = true
    · have hv' : r.user_id = v := by rwa [beq_iff_eq] at hv
      have hu : (r.user_id == u) = false := by
        apply beq_eq_false_iff_ne.mpr
        rw [hv']
        exact Ne.symm h
      simp [setFirst, hv, queryFirst_cons, hu]
    · by_cases hu : (r.user_id == u) = true <;>
        simp [setFirst, hv, queryFirst_cons, hu, ih]

lemma queryFirst_append (db l : Db) (uid : Int) :
    queryFirst (db ++ l) uid = (queryFirst db uid).or (queryFirst l uid) := by
  simp [queryFirst, List.find?_append]

/-- After `end_chatbot`, the row found for the ended user exists and has
`ai_used = 1`. -/
lemma queryFirst_end_self (db : Db) (uid : Int) :
    ∃ r, queryFirst (end_chatbot_db db uid) uid = some r ∧ r.ai_used = 1 := by
  unfold end_chatbot_db
  cases h : queryFirst db uid with
  | none =>
    refine ⟨{ user_id := uid, ai_used := 1 }, ?_, rfl⟩
    rw [queryFirst_append, h]
    simp [queryFirst]
  | some u =>
    refine ⟨{ u with ai_used := 1 }, ?_, rfl⟩
    show queryFirst (setFirst db uid) uid = _
    rw [queryFirst_setFirst_self, h]
    rfl

/-- Ending the session locks the ended user. -/
lemma is_locked_end_self (db : Db) (uid : Int) :
    is_locked (end_chatbot_db db uid) uid = true := by
  obtain ⟨r, hr, h1⟩ := queryFirst_end_self db uid
  simp [is_locked, hr, h1]

/-- Ending any session never clears an existing lock. -/
lemma is_locked_mono_end (db : Db) (u v : Int)
    (h : is_locked db u = true) :
    is_locked (end_chatbot_db db v) u = true := by
  by_cases huv : u = v
  · subst huv
    exact is_locked_end_self db u
  · unfold end_chatbot_db
    cases hv : queryFirst db v with
    | none =>
      unfold is_locked at h ⊢
      rw [queryFirst_append]
      cases hu : queryFirst db u with
      | none => rw [hu] at h; exact absurd h (by simp)
      | some r => rw [hu] at h; simpa [hu] using h
    | some r =>
      unfold is_locked at h ⊢
      rw [queryFirst_setFirst_ne db u v huv]
      exact h

/-- Ending the session for one user does not change the row found for a
different user. -/
lemma queryFirst_end_ne (db : Db) (u v : Int) (h : u ≠ v) :
    queryFirst (end_chatbot_db db v) u = queryFirst db u := by
  unfold end_chatbot_db
  cases hv : queryFirst db v with
  | none =>
    rw [queryFirst_append]
    have : queryFirst [{ user_id := v, ai_used := 1 }] u = none := by
      simp [queryFirst, beq_eq_false_iff_ne.mpr (Ne.symm h)]
    rw [this]
    cases queryFirst db u <;> rfl
  | some r =>
    exact queryFirst_setFirst_ne db u v h

/-- If the first row for `uid` already has `ai_used = 1`, `setFirst` is
the identity. -/
lemma setFirst_eq_self (db : Db) (uid : Int) (u : AiUsage)
    (h : queryFirst db uid = some u) (h1 : u.ai_used = 1) :
    setFirst db uid = db := by
  induction db with
  | nil => rfl
  | cons r rest ih =>
    by_cases hr : (r.user_id == uid) = true
    · rw [queryFirst_cons, if_pos hr] at h
      have : r = u := by injection h
      subst this
      cases r
      simp only at h1
      simp [setFirst, hr, h1]
    · rw [queryFirst_cons, if_neg hr] at h
      simp [setFirst, hr, ih h]

/-- The database effect of `end_chatbot` is idempotent. -/
lemma end_chatbot_db_idem (db : Db) (uid : Int) :
    end_chatbot_db (end_chatbot_db db uid) uid = end_chatbot_db db uid := by
  obtain ⟨r, hr, h1⟩ := queryFirst_end_self db uid
  generalize hd : end_chatbot_db db uid = db' at hr ⊢
  unfold end_chatbot_db
  rw [hr]
  exact setFirst_eq_self _ uid r hr h1

/-- Any single request preserves an existing lock. -/
lemma is_locked_mono_apply (db : Db) (u : Int) (op : Op)
    (h : is_locked db u = true) : is_locked (applyDb db op) u = true := by
  cases op with
  | post uid hist m cfg r =>
    show is_locked (chatbot_post db uid hist m cfg r).db u = true
    rw [chatbot_post_db_eq]
    exact h
  | reset uid => exact h
  | get uid => exact h
  | endSession uid => exact is_locked_mono_end db u uid h

/-- Any sequence of requests preserves an existing lock. -/
lemma is_locked_mono_runOps (db : Db) (u : Int) (ops : List Op)
    (h : is_locked db u = true) : is_locked (runOps db ops) u = true := by
  induction ops generalizing db with
  | nil => exact h
  | cons op rest ih => exact ih _ (is_locked_mono_apply db u op h)

/-- The upsert of `end_chatbot` keeps the `user_id` column duplicate
free. -/
lemma oneRow_end (db : Db) (uid : Int) (h : oneRowPerUser db) :
    oneRowPerUser (end_chatbot_db db uid) := by
  unfold end_chatbot_db
  cases hq : queryFirst db uid with
  | none =>
    unfold oneRowPerUser at h ⊢
    rw [List.map_append, List.nodup_append]
    refine ⟨h, List.nodup_singleton _, ?_⟩
    intro a ha hb
    have hb' : a = uid := by simpa using hb
    rw [List.mem_map] at ha
    obtain ⟨r, hr, hru⟩ := ha
    have hq' : db.find? (fun x => x.user_id == uid) = none := hq
    have hnone := List.find?_eq_none.mp hq' r hr
    exact hnone (beq_iff_eq.mpr (hru.trans hb'))
  | some r =>
    unfold oneRowPerUser at h ⊢
    rw [setFirst_map_user_id]
    exact h

/-- Any single request keeps the `user_id` column duplicate free. -/
lemma oneRow_apply (db : Db) (op : Op) (h : oneRowPerUser db) :
    oneRowPerUser (applyDb db op) := by
  cases op with
  | post uid hist m cfg r =>
    show oneRowPerUser (chatbot_post db uid hist m cfg r).db
    rw [chatbot_post_db_eq]
    exact h
  | reset uid => exact h
  | get uid => exact h
  | endSession uid => exact oneRow_end db uid h

/-- Chat exchanges never change the persisted table. -/
lemma chat_rounds_db (uid : Int) (db : Db) (hist : List Message)
    (rounds : List (String × Bool × String)) :
    (chat_rounds uid (db, hist) rounds).1 = db := by
  induction rounds generalizing db hist with
  | nil => rfl
  | cons round rest ih =>
    obtain ⟨m, cfg, r⟩ := round
    simp only [chat_rounds, chatbot_post_db_eq]
    exact ih db _

/-! ### Claim theorems -/

/-- C1: after `end_chatbot` for a user, `is_locked` is true for that
user, and it remains true after any further sequence of requests: no
request ever transitions the consumed flag back, so LOCKED is
terminal. -/
theorem locked_is_terminal (db : Db) (sess : Session) (uid : Int) (ops : List Op) :
    is_locked (end_chatbot db sess uid).1 uid = true ∧
    is_locked (runOps (end_chatbot db sess uid).1 ops) uid = true :=
  ⟨is_locked_end_self db uid,
   is_locked_mono_runOps _ uid ops (is_locked_end_self db uid)⟩

/-- C2: a user with no `ai_usage` row (fresh user) is not locked. -/
theorem fresh_user_not_locked (db : Db) (uid : Int)
    (h : queryFirst db uid = none) : is_locked db uid = false := by
  simp [is_locked, h]

theorem fresh_user_not_locked_witness :
    queryFirst [] 0 = none ∧ is_locked [] 0 = false :=
  ⟨rfl, fresh_user_not_locked [] 0 rfl⟩

/-- C3: an unlocked user is Granted, and any sequence of chat
exchanges leaves the persisted table unchanged and the user still
Granted — on the 1st, 5th, or 100th call alike. -/
theorem unlocked_always_granted (db : Db) (uid : Int)
    (h : is_locked db uid = false) :
    try_consume db uid = .Granted ∧
    ∀ (hist : List Message) (rounds : List (String × Bool × String)),
      (chat_rounds uid (db, hist) rounds).1 = db ∧
      try_consume (chat_rounds uid (db, hist) rounds).1 uid = .Granted := by
  have hg : try_consume db uid = .Granted := by simp [try_consume, h]
  refine ⟨hg, fun hist rounds => ?_⟩
  have hd := chat_rounds_db uid db hist rounds
  exact ⟨hd, by rw [hd]; exact hg⟩

theorem unlocked_always_granted_witness :
    is_locked [] 0 = false ∧
    (chat_rounds 0 ([], [])
      [("hi", true, "hello"), ("plan", false, ""), ("", true, "x")]).1 = [] ∧
    try_consume (chat_rounds 0 ([], [])
      [("hi", true, "hello"), ("plan", false, ""), ("", true, "x")]).1 0
      = .Granted := by
  have h := (unlocked_always_granted [] 0 rfl).2 []
    [("hi", true, "hello"), ("plan", false, ""), ("", true, "x")]
  exact ⟨rfl, h.1, h.2⟩

/-- C4: a locked user is Denied: the POST branch appends the static
refusal to the history instead of invoking the external action, leaves
the table unchanged, and a subsequent `end_chatbot` still leaves the
user Denied (and is a total function, raising no error). -/
theorem locked_denied_refusal (db : Db) (uid : Int)
    (h : is_locked db uid = true) :
    try_consume db uid = .Denied ∧
    (∀ (hist : List Message) (m : String) (cfg : Bool) (r : String),
      chatbot_post db uid hist m cfg r =
        { db := db, history := hist ++ [refusal], calledGroq := false }) ∧
    try_consume (end_chatbot_db db uid) uid = .Denied := by
  refine ⟨by simp [try_consume, h], fun hist m cfg r => ?_, ?_⟩
  · unfold chatbot_post
    rw [if_pos h]
  · simp [try_consume, is_locked_end_self db uid]

theorem locked_denied_refusal_witness :
    is_locked [⟨7, 1⟩] 7 = true ∧
    chatbot_post [⟨7, 1⟩] 7 [] "hi" true "reply" =
      { db := [⟨7, 1⟩], history := [refusal], calledGroq := false } ∧
    try_consume (end_chatbot_db [⟨7, 1⟩] 7) 7 = .Denied := by
  have h := locked_denied_refusal [⟨7, 1⟩] 7 (by decide)
  exact ⟨by decide, by simpa using h.2.1 [] "hi" true "reply", h.2.2⟩

/-- C5: `end_chatbot` is idempotent: running it twice in succession
leaves the persisted table and the session identical to running it
once. -/
theorem end_chatbot_idempotent (db : Db) (sess : Session) (uid : Int) :
    end_chatbot (end_chatbot db sess uid).1 (end_chatbot db sess uid).2 uid =
      end_chatbot db sess uid := by
  unfold end_chatbot
  rw [end_chatbot_db_idem]

/-- C6: ending one user's session never changes another user's lock
state. -/
theorem end_session_isolated (db : Db) (sess : Session) (u v : Int)
    (h : u ≠ v) :
    is_locked (end_chatbot db sess u).1 v = is_locked db v := by
  show is_locked (end_chatbot_db db u) v = is_locked db v
  unfold is_locked
  rw [queryFirst_end_ne db v u (Ne.symm h)]

theorem end_session_isolated_witness :
    is_locked (end_chatbot [] ⟨[], false⟩ 1).1 2 = is_locked [] 2 :=
  end_session_isolated [] ⟨[], false⟩ 1 2 (by decide)

/-- C7: every table reachable from the empty database through the
application's request handlers has at most one `ai_usage` row per
user id: `end_chatbot` upserts rather than appends. -/
theorem reachable_one_row (db : Db) (h : Reachable db) :
    oneRowPerUser db := by
  induction h with
  | init => exact List.nodup_nil
  | step db op hdb ih => exact oneRow_apply db op ih

theorem reachable_one_row_witness :
    oneRowPerUser (applyDb (applyDb [] (Op.endSession 3)) (Op.endSession 3)) :=
  reachable_one_row _ (Reachable.step _ _ (Reachable.step _ _ Reachable.init))

/-- C8: when the persistence-layer lookup fails, every gate operation
propagates the storage error to its caller and never answers with an
unlocked/locked or grant/deny value in its place. -/
theorem storage_error_propagates (db : Db) (uid : Int) (e : StorageError)
    (lookupU : Except StorageError (Option AiUsage))
    (lookupS : Except StorageError (Option Subscription))
    (hU : lookupU = .error e) (hS : lookupS = .error e) (huid : uid ≠ 0) :
    is_lockedE lookupU = .error e ∧
    try_consumeE lookupU = .error e ∧
    end_chatbot_dbE db uid lookupU = .error e ∧
    user_is_subscribedE uid lookupS = .error e ∧
    (∀ b, is_lockedE lookupU ≠ .ok b) ∧
    (∀ g, try_consumeE lookupU ≠ .ok g) := by
  subst hU hS
  refine ⟨rfl, rfl, rfl, ?_, ?_, ?_⟩
  · unfold user_is_subscribedE
    rw [if_neg (by simp [beq_eq_false_iff_ne.mpr huid])]
    rfl
  · intro b hb
    exact Except.noConfusion hb
  · intro g hg
    exact Except.noConfusion hg

theorem storage_error_propagates_witness :
    is_lockedE (.error ⟨"db down"⟩) = .error ⟨"db down"⟩ ∧
    user_is_subscribedE 5 (.error ⟨"db down"⟩) = .error ⟨"db down"⟩ := by
  have h := storage_error_propagates [] 5 ⟨"db down"⟩ (.error ⟨"db down"⟩)
    (.error ⟨"db down"⟩) rfl rfl (by decide)
  exact ⟨h.1, h.2.2.2.1⟩

/-- C9: `end_chatbot` does not only mark the row consumed: it also
resets the session's chat history to the empty sequence, whatever the
prior session contents. -/
theorem end_chatbot_resets_history (db : Db) (sess : Session) (uid : Int) :
    (end_chatbot db sess uid).2.ai_history = [] ∧
    is_locked (end_chatbot db sess uid).1 uid = true :=
  ⟨rfl, is_locked_end_self db uid⟩

/-- C10: under the one-row-per-user invariant, a user is locked iff an
`ai_usage` row for them exists with `ai_used` exactly 1; a row holding
any other value (0, 2, or greater) leaves the user unlocked. -/
theorem locked_iff_row_ai_used_one (db : Db) (uid : Int)
    (h : oneRowPerUser db) :
    is_locked db uid = true ↔
      ∃ x ∈ db, x.user_id = uid ∧ x.ai_used = 1 := by
  induction db with
  | nil => simp [is_locked, queryFirst]
  | cons r rest ih =>
    rw [oneRowPerUser, List.map_cons, List.nodup_cons] at h
    obtain ⟨hnotin, hrest⟩ := h
    rw [is_locked_cons]
    by_cases hr : (r.user_id == uid) = true
    · rw [if_pos hr]
      have hru : r.user_id = uid := beq_iff_eq.mp hr
      constructor
      · intro h1
        exact ⟨r, List.mem_cons_self r rest, hru, beq_iff_eq.mp h1⟩
      · rintro ⟨x, hx, hxu, hx1⟩
        rcases List.mem_cons.mp hx with hxr | hxr
        · subst hxr
          exact beq_iff_eq.mpr hx1
        · exact absurd (List.mem_map.mpr ⟨x, hxr, hxu.trans hru.symm⟩) hnotin
    · rw [if_neg hr]
      have hru : r.user_id ≠ uid := fun hh => hr (beq_iff_eq.mpr hh)
      rw [ih hrest]
      constructor
      · rintro ⟨x, hx, hxu, hx1⟩
        exact ⟨x, List.mem_cons_of_mem r hx, hxu, hx1⟩
      · rintro ⟨x, hx, hxu, hx1⟩
        rcases List.mem_cons.mp hx with hxr | hxr
        · exact absurd (hxr ▸ hxu) hru
        · exact ⟨x, hxr, hxu, hx1⟩

theorem locked_iff_row_ai_used_one_witness :
    is_locked [⟨4, 2⟩, ⟨5, 1⟩] 5 = true ∧ is_locked [⟨4, 2⟩, ⟨5, 1⟩] 4 = false := by
  have hinv : oneRowPerUser [⟨4, 2⟩, ⟨5, 1⟩] := by
    unfold oneRowPerUser
    decide
  constructor
  · exact (locked_iff_row_ai_used_one [⟨4, 2⟩, ⟨5, 1⟩] 5 hinv).mpr
      ⟨⟨5, 1⟩, by decide, rfl, rfl⟩
  · by_contra hc
    have hc' : is_locked [⟨4, 2⟩, ⟨5, 1⟩] 4 = true := by
      revert hc
      decide
    obtain ⟨x, hx, hxu, hx1⟩ :=
      (locked_iff_row_ai_used_one [⟨4, 2⟩, ⟨5, 1⟩] 4 hinv).mp hc'
    revert hxu hx1
    rcases List.mem_cons.mp hx with h4 | hx'
    · subst h4
      decide
    · rcases List.mem_cons.mp hx' with h5 | h0
      · subst h5
        decide
      · exact absurd h0 (List.not_mem_nil x)

end CareerTech
